import Mathlib

/-!
Verification of the Kino generation-task orchestration engine.

The definitions below are a shallow embedding of the backend's task
lifecycle machinery:

* `backend/services/generator_service.py` (`GeneratorService`),
* `backend/main.py` (`cleanup_stuck_tasks`),
* `backend/plugins/base_plugin.py` (`BasePlugin`),
* `backend/plugins/sdxl/loader.py` (`SDXLLoader`, `SDXLPlugin`),
* `backend/services/frame_service.py` (`FrameService`).

The SQLite task/frame tables become association lists, timestamps become a
logical clock (`time`, bumped once per write, so distinct writes get
distinct stamps), floats become rationals, and the `asyncio` background
pipeline of `_run_generation` becomes explicit steps (`progressStep`,
`finishStep`) driven by an `inflight` multiset of dispatched pipelines.
-/

namespace Kino

/-- Task status enum from `models/task.py` (`TaskStatus`). -/
inductive TaskStatus
  | pending
  | running
  | completed
  | failed
  | stopped
deriving DecidableEq, Repr

/-- One row of the `tasks` table, restricted to the columns the
orchestrator reads and writes.  `result` keeps the one piece of the
result payload the spec observes: the list of generated frame ids. -/
structure TaskRec where
  type : String
  status : TaskStatus
  progress : Rat
  result : Option (List Nat)
  error : Option String
  started_at : Option Nat
  completed_at : Option Nat
  updated_at : Nat
deriving DecidableEq, Repr

/-- Association-list lookup for the `tasks` table (`WHERE id = ?`). -/
def lookupTask : List (Nat × TaskRec) → Nat → Option TaskRec
  | [], _ => none
  | p :: ps, id => if p.1 = id then some p.2 else lookupTask ps id

/-- Write back one row by id (`UPDATE tasks SET ... WHERE id = ?`). -/
def setTask : List (Nat × TaskRec) → Nat → TaskRec → List (Nat × TaskRec)
  | [], _, _ => []
  | p :: ps, id, r => (if p.1 = id then (id, r) else p) :: setTask ps id r

/-- Bulk row update (`UPDATE tasks SET ... WHERE <condition on the row>`),
applying `g` to every row value. -/
def mapVals (g : TaskRec → TaskRec) : List (Nat × TaskRec) → List (Nat × TaskRec)
  | [] => []
  | p :: ps => (p.1, g p.2) :: mapVals g ps

/-- The terminal statuses listed in `update_task_status`
(`[TaskStatus.COMPLETED, TaskStatus.FAILED, TaskStatus.STOPPED]`). -/
def terminalStatuses : List TaskStatus :=
  [TaskStatus.completed, TaskStatus.failed, TaskStatus.stopped]

/-- State of `GeneratorService` together with the task store:
`tasks` is the SQLite table, `running_tasks` the in-memory dict of live
plugin instances (keyed by task id), `inflight` the multiset of
`_run_generation` coroutines spawned by `asyncio.create_task` that have
not yet finished, `registry` the set of plugin type names known to
`PluginRegistry`, and `time` the logical clock standing in for
`datetime.utcnow()`. -/
structure GenState where
  tasks : List (Nat × TaskRec)
  running_tasks : List Nat
  inflight : List Nat
  registry : List String
  time : Nat
deriving DecidableEq, Repr

/-- `GeneratorService.update_task_status`: re-reads the task, then writes
status and `updated_at`, plus `progress`/`result`/`error` when given,
stamps `started_at` on the first transition to RUNNING, and stamps
`completed_at` on every write of a terminal status. -/
def updateTaskStatus (s : GenState) (task_id : Nat) (status : TaskStatus)
    (progress : Option Rat) (result : Option (List Nat)) (error : Option String) : GenState :=
  match lookupTask s.tasks task_id with
  | none => s
  | some existing =>
    let r : TaskRec :=
      { existing with
        status := status
        updated_at := s.time
        progress := progress.getD existing.progress
        result := match result with | some v => some v | none => existing.result
        error := match error with | some v => some v | none => existing.error
        started_at :=
          if status = TaskStatus.running ∧ existing.started_at = none then some s.time
          else existing.started_at
        completed_at :=
          if status ∈ terminalStatuses then some s.time else existing.completed_at }
    { s with tasks := setTask s.tasks task_id r, time := s.time + 1 }

/-- The read-and-check phase of `GeneratorService.start_generation`
(everything up to and including the `task.status != TaskStatus.PENDING`
test; it performs no mutation).  `start_generation` suspends at the
`await` of this read, so two concurrent calls may both pass the check
before either applies. -/
def startCheck (s : GenState) (task_id : Nat) : Bool :=
  match lookupTask s.tasks task_id with
  | none => false
  | some task => task.status == TaskStatus.pending

/-- The apply phase of `GeneratorService.start_generation`: resolve the
plugin class (marking the task FAILED if the type is not registered),
register the instance in `running_tasks`, transition to RUNNING with
progress 0, and dispatch `_run_generation` in the background. -/
def startApply (s : GenState) (task_id : Nat) : Bool × GenState :=
  match lookupTask s.tasks task_id with
  | none => (false, s)
  | some task =>
    if task.type ∈ s.registry then
      let s1 := { s with running_tasks :=
        if task_id ∈ s.running_tasks then s.running_tasks else task_id :: s.running_tasks }
      let s2 := updateTaskStatus s1 task_id TaskStatus.running (some 0) none none
      (true, { s2 with inflight := task_id :: s2.inflight })
    else
      (false, updateTaskStatus s task_id TaskStatus.failed none none
        (some ("Plugin '" ++ task.type ++ "' not found")))

/-- `GeneratorService.start_generation` run without interleaving: the
check phase immediately followed by the apply phase. -/
def startGeneration (s : GenState) (task_id : Nat) : Bool × GenState :=
  if startCheck s task_id then startApply s task_id else (false, s)

/-- The `progress_callback` closure of `_run_generation`: persists a
progress value by writing status RUNNING with that progress.  It can only
fire while the dispatched pipeline is in flight. -/
def progressStep (s : GenState) (task_id : Nat) (p : Rat) : GenState :=
  if task_id ∈ s.inflight then
    updateTaskStatus s task_id TaskStatus.running (some p) none none
  else s

/-- Result handed back by a plugin's `generate` (`PluginResult`), keeping
the list of generated frame ids as the observed payload. -/
structure PluginResult where
  success : Bool
  data : List Nat
  error : String
deriving DecidableEq, Repr

/-- Completion handling of `GeneratorService._run_generation`: on success
write COMPLETED with progress 100 and the result, otherwise write FAILED
with the reported error; in both cases the `finally` block removes the
task from `running_tasks`, and the coroutine leaves the in-flight set. -/
def finishStep (s : GenState) (task_id : Nat) (result : PluginResult) : GenState :=
  if task_id ∈ s.inflight then
    let s1 :=
      if result.success then
        updateTaskStatus s task_id TaskStatus.completed (some 100) (some result.data) none
      else
        updateTaskStatus s task_id TaskStatus.failed none none (some result.error)
    { s1 with running_tasks := s1.running_tasks.erase task_id,
              inflight := s1.inflight.erase task_id }
  else s

/-- `GeneratorService.stop_generation`: reject unless the task exists and
is RUNNING; otherwise signal the plugin (if an instance is live), drop it
from `running_tasks`, and write STOPPED. -/
def stopGeneration (s : GenState) (task_id : Nat) : Bool × GenState :=
  match lookupTask s.tasks task_id with
  | none => (false, s)
  | some task =>
    if task.status = TaskStatus.running then
      let s1 := { s with running_tasks := s.running_tasks.erase task_id }
      (true, updateTaskStatus s1 task_id TaskStatus.stopped none none none)
    else (false, s)

/-- `GeneratorService.clear_pending_tasks`: bulk-update every PENDING row
to STOPPED, stamping `updated_at` and `completed_at` with one shared
timestamp; returns the number of cleared tasks. -/
def clearPendingTasks (s : GenState) : Nat × GenState :=
  let n := (s.tasks.filter (fun p => p.2.status == TaskStatus.pending)).length
  if 0 < n then
    (n, { s with
      tasks := mapVals (fun r =>
        if r.status = TaskStatus.pending then
          { r with status := TaskStatus.stopped, updated_at := s.time,
                   completed_at := some s.time }
        else r) s.tasks,
      time := s.time + 1 })
  else (0, s)

/-- The fixed error message written by `cleanup_stuck_tasks` in
`backend/main.py`. -/
def restartErrorMessage : String := "Task stopped due to server restart"

/-- `cleanup_stuck_tasks` from `backend/main.py`: at startup, every task
whose status is RUNNING is updated to STOPPED with progress 0, a fresh
`updated_at`, and the fixed restart error message (one shared timestamp;
`completed_at` and `started_at` are not touched). -/
def cleanupStuckTasks (s : GenState) : GenState :=
  { s with
    tasks := mapVals (fun r =>
      if r.status = TaskStatus.running then
        { r with status := TaskStatus.stopped, progress := 0, updated_at := s.time,
                 error := some restartErrorMessage }
      else r) s.tasks,
    time := s.time + 1 }

/-- The persisted status of a task, as read back from the store. -/
def statusOf (s : GenState) (task_id : Nat) : Option TaskStatus :=
  (lookupTask s.tasks task_id).map TaskRec.status

/-- The persisted `completed_at` column of a task. -/
def completedAtOf (s : GenState) (task_id : Nat) : Option (Option Nat) :=
  (lookupTask s.tasks task_id).map TaskRec.completed_at

/-- The transition edges named in §4.1 of the specification. -/
def specEdges : List (TaskStatus × TaskStatus) :=
  [(TaskStatus.pending, TaskStatus.running),
   (TaskStatus.running, TaskStatus.completed),
   (TaskStatus.running, TaskStatus.failed),
   (TaskStatus.running, TaskStatus.stopped),
   (TaskStatus.pending, TaskStatus.stopped)]

/-! ## SDXL progress schedule (`plugins/sdxl/loader.py`) -/

/-- The clamp applied by `update_progress` before storing and reporting
(`max(0.0, min(100.0, progress))`). -/
def clampProgress (p : Rat) : Rat := max 0 (min 100 p)

/-- The per-variant scaling lambda built in `SDXLLoader.generate`:
`min(100.0, variant_progress_start + p * (variant_progress_end -
variant_progress_start) / 100.0)` with `variant_progress_start = 5 +
(i/n)*90` and `variant_progress_end = 5 + ((i+1)/n)*90`. -/
def scaleVariantProgress (variant_idx num_variants : Nat) (p : Rat) : Rat :=
  let vstart : Rat := 5 + ((variant_idx : Rat) / (num_variants : Rat)) * 90
  let vend : Rat := 5 + (((variant_idx : Rat) + 1) / (num_variants : Rat)) * 90
  min 100 (vstart + p * (vend - vstart) / 100)

/-- The sequence of raw values `_generate_single_variant` feeds to
`self.update_progress` on a successful run: 10 for the LoRA stage when
LoRAs are configured, then 15 (prompt encode), 20 (latent init),
15 (frame-record step), 25 (sampler start), the sampling-step values
scheduled by the preview callback (cadence left as a parameter), then
85 (decode), 95 (parameter save) and 100. -/
def variantProgressReports (has_loras : Bool) (sampling : List Rat) : List Rat :=
  (if has_loras then [10] else []) ++ [15, 20, 15, 25] ++ sampling ++ [85, 95, 100]

/-- The sequence of progress values `SDXLLoader.generate` hands to the
service's `progress_callback` (and which `_run_generation` persists) on a
successful run: 5 for the checkpoint stage, then each variant's reports
clamped and rescaled into that variant's budget, then a final 100. -/
def persistedProgressReports (num_variants : Nat) (has_loras : Bool)
    (sampling : List Rat) : List Rat :=
  clampProgress 5 ::
    ((List.range num_variants).flatMap (fun i =>
      (variantProgressReports has_loras sampling).map
        (fun p => scaleVariantProgress i num_variants (clampProgress p))))
    ++ [clampProgress 100]

/-- Decides whether a list of progress values is non-decreasing. -/
def nondecreasingList : List Rat → Bool
  | [] => true
  | [_] => true
  | a :: b :: l => decide (a ≤ b) && nondecreasingList (b :: l)

/-! ## Frame store and the SDXL variant loop
(`services/frame_service.py`, `plugins/sdxl/loader.py`) -/

/-- One row of the `frames` table (`project_id` is `NOT NULL` in the
schema and `FrameCreate` requires it). -/
structure FrameRec where
  id : Nat
  path : String
  generator : String
  project_id : Nat
  variant_id : Nat
deriving DecidableEq, Repr

/-- The frame side of the database: the `projects` table (ids only), the
`frames` table, and its AUTOINCREMENT counter. -/
structure FrameStore where
  projects : List Nat
  next_id : Nat
  frames : List FrameRec
deriving DecidableEq, Repr

/-- `FrameService.get_frame_by_id` (`SELECT ... WHERE id = ?`). -/
def getFrameById (st : FrameStore) (frame_id : Nat) : Option FrameRec :=
  st.frames.find? (fun f => f.id == frame_id)

/-- `FrameService.create_frame`: rejects when the project id is missing
(`FrameCreate` validation) or names no existing project, otherwise
inserts a fresh row and returns its id. -/
def createFrame (st : FrameStore) (path generator : String) (project_id : Option Nat)
    (variant_id : Nat) : Option (FrameStore × Nat) :=
  match project_id with
  | none => none
  | some pid =>
    if pid ∈ st.projects then
      some ({ st with
        next_id := st.next_id + 1,
        frames := st.frames ++ [{ id := st.next_id, path := path, generator := generator,
                                  project_id := pid, variant_id := variant_id }] }, st.next_id)
    else none

/-- `FrameService.update_frame_path` (also `update_frame` restricted to
the `path` field, which is how the SDXL loader uses it). -/
def updateFramePath (st : FrameStore) (frame_id : Nat) (new_path : String) : FrameStore :=
  { st with frames := st.frames.map (fun f =>
      if f.id = frame_id then { f with path := new_path } else f) }

/-- Python string interpolation of an optional integer (`None` prints as
the literal text `None`). -/
def pyOptNatStr : Option Nat → String
  | none => "None"
  | some n => toString n

/-- Stand-in for `Config.FRAMES_DIR`. -/
def framesDirPath : String := "data/frames"

/-- The dictionary `_generate_single_variant` returns on success:
`frame_id` is the naming (grouping) frame id, not necessarily the id of
the row the call created. -/
structure VariantOut where
  frame_id : Nat
  output_path : String
  variant_id : Nat
  seed : Nat
deriving DecidableEq, Repr

/-- `SDXLLoader._generate_single_variant` with the opaque compute stages
(checkpoint, CLIP encode, sampler, VAE decode, file writes) assumed to
succeed.  The per-variant seed is `base_seed + variant_idx` when a base
seed was supplied, else `rand + variant_idx` where `rand` models the
`random.randint` draw.  For a fresh generation it creates the variant's
frame row under a temporary path, renames it to
`project_{pid}_frame_{naming}_variant_{idx}.png` (the naming id being the
first variant's id), and rewrites the path again after the final save;
for a regeneration it reuses the existing frame's path and id. -/
def generateSingleVariant (variant_idx : Nat) (base_seed : Option Nat) (rand : Nat)
    (project_id : Option Nat) (base_frame_id : Option Nat) (regenerate_frame_id : Option Nat)
    (st : FrameStore) : FrameStore × Option VariantOut :=
  let current_seed := (base_seed.getD rand) + variant_idx
  match regenerate_frame_id with
  | none =>
    let temp_path := "temp_frame_" ++ pyOptNatStr project_id ++ "_" ++
      toString variant_idx ++ ".png"
    match createFrame st temp_path "sdxl" project_id variant_idx with
    | none => (st, none)
    | some (st1, frame_id) =>
      let naming_frame_id := base_frame_id.getD frame_id
      let filename := "project_" ++ pyOptNatStr project_id ++ "_frame_" ++
        toString naming_frame_id ++ "_variant_" ++ toString variant_idx ++ ".png"
      let final_path := framesDirPath ++ "/" ++ filename
      let st2 := updateFramePath st1 frame_id final_path
      let st3 := updateFramePath st2 frame_id final_path
      (st3, some { frame_id := naming_frame_id, output_path := final_path,
                   variant_id := variant_idx, seed := current_seed })
  | some rid =>
    match getFrameById st rid with
    | none => (st, none)
    | some existing_frame =>
      let final_path := existing_frame.path
      let st2 := updateFramePath st rid final_path
      (st2, some { frame_id := rid, output_path := final_path,
                   variant_id := variant_idx, seed := current_seed })

/-- The `for variant_idx in range(num_variants)` loop of
`SDXLLoader.generate`: runs the variants in order, sets the naming
(base) frame id from the first variant's returned `frame_id`, and
collects each variant's returned dictionary; a failed variant aborts the
whole loop. -/
def sdxlVariantLoop (base_seed : Option Nat) (rand : Nat) (project_id : Option Nat)
    (regenerate_frame_id : Option Nat) :
    List Nat → Option Nat → List VariantOut → FrameStore → FrameStore × Option (List VariantOut)
  | [], _, acc, st => (st, some acc)
  | i :: rest, base_frame_id, acc, st =>
    match generateSingleVariant i base_seed rand project_id base_frame_id
        regenerate_frame_id st with
    | (st1, none) => (st1, none)
    | (st1, some out) =>
      sdxlVariantLoop base_seed rand project_id regenerate_frame_id rest
        (some (base_frame_id.getD out.frame_id)) (acc ++ [out]) st1

/-- The result dictionary of `SDXLLoader.generate`, restricted to the
fields the claims observe. -/
structure SDXLResult where
  success : Bool
  generated_frames : List Nat
  num_variants : Nat
  project_id : Option Nat
  error : String
deriving DecidableEq, Repr

/-- `SDXLLoader.generate`: validates the required parameters and the
variant bound, runs the variant loop, and on success returns the data
dictionary with `generated_frames` holding each variant's returned
`frame_id`. -/
def sdxlGenerate (prompt_present model_present : Bool) (num_variants : Nat)
    (base_seed : Option Nat) (rand : Nat) (project_id : Option Nat)
    (regenerate_frame_id : Option Nat) (st : FrameStore) : FrameStore × SDXLResult :=
  if prompt_present = false then
    (st, { success := false, generated_frames := [], num_variants := num_variants,
           project_id := project_id, error := "Parameter 'prompt' is required" })
  else if model_present = false then
    (st, { success := false, generated_frames := [], num_variants := num_variants,
           project_id := project_id, error := "Parameter 'model_name' is required" })
  else if num_variants < 1 ∨ 10 < num_variants then
    (st, { success := false, generated_frames := [], num_variants := num_variants,
           project_id := project_id,
           error := "Parameter 'num_variants' must be an integer between 1 and 10" })
  else
    match sdxlVariantLoop base_seed rand project_id regenerate_frame_id
        (List.range num_variants) none [] st with
    | (st1, none) =>
      (st1, { success := false, generated_frames := [], num_variants := num_variants,
              project_id := project_id, error := "Failed to generate variant" })
    | (st1, some outs) =>
      (st1, { success := true, generated_frames := outs.map VariantOut.frame_id,
              num_variants := num_variants, project_id := project_id, error := "" })

/-! ## Plugin progress bookkeeping (`base_plugin.py`, the SDXL wrapper) -/

/-- State of a plugin that keeps its progress on itself
(`BasePlugin.__init__` sets `self.progress = 0.0`). -/
structure BasePluginState where
  progress : Rat
deriving DecidableEq, Repr

/-- A freshly constructed `BasePlugin`. -/
def basePluginInit : BasePluginState := { progress := 0 }

/-- `BasePlugin.update_progress`: clamp, store on `self`, and report the
clamped value to the callback (returned as the second component). -/
def baseUpdateProgress (st : BasePluginState) (p : Rat) : BasePluginState × Rat :=
  let clamped := clampProgress p
  ({ st with progress := clamped }, clamped)

/-- `BasePlugin.get_progress`. -/
def baseGetProgress (st : BasePluginState) : Rat := st.progress

/-- State of an `SDXLPlugin` instance: the wrapper's own `progress`
field (inherited from `BasePlugin.__init__`) and the inner
`SDXLLoader`'s `progress` field. -/
structure SDXLPluginState where
  wrapper_progress : Rat
  loader_progress : Rat
deriving DecidableEq, Repr

/-- A freshly constructed `SDXLPlugin` (both progress fields start 0). -/
def sdxlPluginInit : SDXLPluginState := { wrapper_progress := 0, loader_progress := 0 }

/-- `SDXLLoader.update_progress`, which is what runs during
`SDXLPlugin.generate` (the wrapper delegates to `self.loader.generate`):
clamps, stores on the loader, and reports the clamped value to the
progress sink (second component). -/
def loaderUpdateProgress (st : SDXLPluginState) (p : Rat) : SDXLPluginState × Rat :=
  let clamped := clampProgress p
  ({ st with loader_progress := clamped }, clamped)

/-- `get_progress` as called on the `SDXLPlugin` wrapper: inherited from
`BasePlugin`, it reads the wrapper's own `progress` field. -/
def pluginGetProgress (st : SDXLPluginState) : Rat := st.wrapper_progress

/-! ## `FrameService.delete_frame` and SQL `LIKE` (`frame_service.py`) -/

/-- SQLite `LIKE` pattern matching over explicit character lists:
`%` matches any (possibly empty) run of characters (realized by trying
every split point), `_` matches exactly one character, and every other
pattern character matches itself. -/
def likeMatch : List Char → List Char → Bool
  | [], s => s.isEmpty
  | pc :: ps, s =>
    if pc = '%' then
      (List.range (s.length + 1)).any (fun k => likeMatch ps (s.drop k))
    else
      match s with
      | [] => false
      | c :: s2 => (pc == '_' || pc == c) && likeMatch ps s2

/-- Containment of one character sequence in another (the plain
"substring" relation used to state what `delete_frame`'s pattern
matches). -/
def containsSeq (lit : List Char) : List Char → Bool
  | [] => lit.isEmpty
  | c :: s => lit.isPrefixOf (c :: s) || containsSeq lit s

/-- Index of the last `.` in a character list, if any
(Python's `str.rfind`). -/
def lastDotIdx (cs : List Char) : Option Nat :=
  match cs.reverse.findIdx? (fun c => c == '.') with
  | none => none
  | some j => some (cs.length - 1 - j)

/-- The final component of a `/`-separated path (what `pathlib` calls
`name`): the characters after the last `/`. -/
def afterLastSlash (cs : List Char) : List Char :=
  ((cs.reverse.takeWhile (fun c => !(c == '/'))).reverse)

/-- `pathlib.Path(path).stem`: the final path component with its last
suffix removed, where a suffix only counts when its dot is neither the
first nor the last character of the component. -/
def pyPathStem (path : List Char) : List Char :=
  let name := afterLastSlash path
  match lastDotIdx name with
  | some k => if 0 < k ∧ k < name.length - 1 then name.take k else name
  | none => name

/-- `base_name.split('_v')[0]`: the characters of the stem before its
first occurrence of `_v` (the whole stem when `_v` does not occur). -/
def basePartsOf : List Char → List Char
  | [] => []
  | [c] => [c]
  | c :: d :: rest =>
    if c = '_' ∧ d = 'v' then [] else c :: basePartsOf (d :: rest)

/-- `FrameService.delete_frame`: look up the base frame (returning false
untouched when it does not exist), truncate its path stem at `_v`, and
delete every frame of the same project whose path matches the SQL
pattern `%<truncated stem>%`; returns whether at least one row was
deleted. -/
def deleteFrame (st : FrameStore) (frame_id : Nat) : Bool × FrameStore :=
  match getFrameById st frame_id with
  | none => (false, st)
  | some base_frame =>
    let base_parts := basePartsOf (pyPathStem base_frame.path.toList)
    let pattern := '%' :: (base_parts ++ ['%'])
    let hit := fun f : FrameRec =>
      f.project_id == base_frame.project_id && likeMatch pattern f.path.toList
    (!(st.frames.filter hit).isEmpty,
     { st with frames := st.frames.filter (fun f => !(hit f)) })

/-! ## Concrete states used by the scenario theorems -/

/-- A freshly created PENDING task of type `sdxl` (as inserted by
`create_task`). -/
def tr0 : TaskRec :=
  { type := "sdxl", status := TaskStatus.pending, progress := 0, result := none,
    error := none, started_at := none, completed_at := none, updated_at := 0 }

/-- A store holding the single pending task `1`, with the `sdxl` plugin
registered. -/
def s0 : GenState :=
  { tasks := [(1, tr0)], running_tasks := [], inflight := [], registry := ["sdxl"], time := 1 }

/-- The same store with an empty plugin registry (a task whose type is no
longer discoverable at startup). -/
def sU : GenState := { s0 with registry := [] }

/-- The `PluginResult` a plugin returns after observing its cooperative
stop flag (`success=False, error="Generation stopped"`). -/
def stoppedPluginResult : PluginResult :=
  { success := false, data := [], error := "Generation stopped" }

/-- The state after task 1 was started from `s0`. -/
def runState : GenState := (startGeneration s0 1).2

/-- The state after task 1 was then stopped while its pipeline was still
in flight. -/
def stopState : GenState := (stopGeneration runState 1).2

/-- A RUNNING task with progress 42 left over from a previous session
(its pipeline is gone, `completed_at` still null). -/
def trRun : TaskRec :=
  { type := "sdxl", status := TaskStatus.running, progress := 42, result := none,
    error := none, started_at := some 0, completed_at := none, updated_at := 0 }

/-- An already COMPLETED task. -/
def trDone : TaskRec :=
  { type := "sdxl", status := TaskStatus.completed, progress := 100, result := some [1],
    error := none, started_at := some 0, completed_at := some 1, updated_at := 1 }

/-- A store as seen at process startup: task 2 is an orphaned RUNNING
task, task 3 is COMPLETED; no live plugin instances. -/
def sRun : GenState :=
  { tasks := [(2, trRun), (3, trDone)], running_tasks := [], inflight := [],
    registry := ["sdxl"], time := 5 }

/-- An empty frame store for project 7 with AUTOINCREMENT counter at 1. -/
def fst0 : FrameStore := { projects := [7], next_id := 1, frames := [] }

/-- The 3-variant SDXL scenario: `num_variants=3`, `base_seed=100`,
project 7, fresh generation. -/
def sdxl3 : FrameStore × SDXLResult :=
  sdxlGenerate true true 3 (some 100) 0 (some 7) none fst0

/-- The variant-loop outputs of the same scenario (the dictionaries the
three `_generate_single_variant` calls return). -/
def sdxl3outs : FrameStore × Option (List VariantOut) :=
  sdxlVariantLoop (some 100) 0 (some 7) none (List.range 3) none [] fst0

/-- Base frame of one generation request (variant 0). -/
def fA : FrameRec :=
  { id := 1, path := "data/frames/project_7_frame_1_variant_0.png",
    generator := "sdxl", project_id := 7, variant_id := 0 }

/-- Sibling variant of the same request. -/
def fB : FrameRec :=
  { id := 2, path := "data/frames/project_7_frame_1_variant_1.png",
    generator := "sdxl", project_id := 7, variant_id := 1 }

/-- A frame of an unrelated request whose path merely contains the text
`project_7_frame_1`. -/
def fC : FrameRec :=
  { id := 3, path := "data/frames/other_project_7_frame_1_tail.png",
    generator := "sdxl", project_id := 7, variant_id := 0 }

/-- A frame of the same project with an unrelated path. -/
def fD : FrameRec :=
  { id := 4, path := "data/frames/project_8_unrelated.png",
    generator := "sdxl", project_id := 7, variant_id := 0 }

/-- A frame store exercising `delete_frame`. -/
def dst0 : FrameStore := { projects := [7], next_id := 5, frames := [fA, fB, fC, fD] }

/-! ## Store lemmas -/

theorem lookupTask_setTask_self (ts : List (Nat × TaskRec)) (id : Nat) (r : TaskRec) :
    lookupTask (setTask ts id r) id = (lookupTask ts id).map (fun _ => r) := by
  induction ts with
  | nil => rfl
  | cons p ps ih =>
    by_cases h : p.1 = id
    · simp [setTask, lookupTask, h]
    · simp [setTask, lookupTask, h, ih]

theorem lookupTask_setTask_ne (ts : List (Nat × TaskRec)) (id j : Nat) (r : TaskRec)
    (h : j ≠ id) : lookupTask (setTask ts id r) j = lookupTask ts j := by
  induction ts with
  | nil => rfl
  | cons p ps ih =>
    by_cases hp : p.1 = id
    · have hij : ¬ id = j := fun e => h e.symm
      simp [setTask, lookupTask, hp, hij, ih]
    · simp [setTask, lookupTask, hp, ih]

theorem lookupTask_mapVals (g : TaskRec → TaskRec) (ts : List (Nat × TaskRec)) (j : Nat) :
    lookupTask (mapVals g ts) j = (lookupTask ts j).map g := by
  induction ts with
  | nil => rfl
  | cons p ps ih =>
    by_cases h : p.1 = j
    · simp [mapVals, lookupTask, h]
    · simp [mapVals, lookupTask, h, ih]

theorem lookup_updateTaskStatus_self (s : GenState) (id : Nat) (st : TaskStatus)
    (prog : Option Rat) (res : Option (List Nat)) (err : Option String) :
    lookupTask (updateTaskStatus s id st prog res err).tasks id =
      (lookupTask s.tasks id).map (fun existing =>
        { existing with
          status := st
          updated_at := s.time
          progress := prog.getD existing.progress
          result := match res with | some v => some v | none => existing.result
          error := match err with | some v => some v | none => existing.error
          started_at :=
            if st = TaskStatus.running ∧ existing.started_at = none then some s.time
            else existing.started_at
          completed_at :=
            if st ∈ terminalStatuses then some s.time else existing.completed_at }) := by
  unfold updateTaskStatus
  cases h : lookupTask s.tasks id with
  | none => simp [h]
  | some e => simp [h, lookupTask_setTask_self]

theorem lookup_updateTaskStatus_ne (s : GenState) (id : Nat) (st : TaskStatus)
    (prog : Option Rat) (res : Option (List Nat)) (err : Option String) (j : Nat)
    (h : j ≠ id) :
    lookupTask (updateTaskStatus s id st prog res err).tasks j = lookupTask s.tasks j := by
  unfold updateTaskStatus
  cases hl : lookupTask s.tasks id with
  | none => rfl
  | some e => simp [lookupTask_setTask_ne _ _ _ _ h]

theorem statusOf_updateTaskStatus_self (s : GenState) (id : Nat) (st : TaskStatus)
    (prog : Option Rat) (res : Option (List Nat)) (err : Option String) :
    statusOf (updateTaskStatus s id st prog res err) id =
      (lookupTask s.tasks id).map (fun _ => st) := by
  rw [statusOf, lookup_updateTaskStatus_self]
  cases lookupTask s.tasks id <;> rfl

theorem statusOf_updateTaskStatus_ne (s : GenState) (id : Nat) (st : TaskStatus)
    (prog : Option Rat) (res : Option (List Nat)) (err : Option String) (j : Nat)
    (h : j ≠ id) :
    statusOf (updateTaskStatus s id st prog res err) j = statusOf s j := by
  rw [statusOf, lookup_updateTaskStatus_ne _ _ _ _ _ _ _ h, statusOf]

theorem statusOf_update_cases (s : GenState) (id : Nat) (st : TaskStatus)
    (prog : Option Rat) (res : Option (List Nat)) (err : Option String) (j : Nat) :
    statusOf (updateTaskStatus s id st prog res err) j = statusOf s j ∨
      statusOf (updateTaskStatus s id st prog res err) j = some st := by
  by_cases hj : j = id
  · subst hj
    rw [statusOf_updateTaskStatus_self]
    cases h : lookupTask s.tasks j with
    | none => left; rw [statusOf, h]; rfl
    | some e => right; rfl
  · left; exact statusOf_updateTaskStatus_ne _ _ _ _ _ _ _ hj

/-! ## C1: task status transition edges -/

/-- C1 (counterexample): the persisted status does not transition only
along the §4.1 edges and the terminal states are not absorbing.  First,
`start_generation` on a PENDING task whose plugin type is not registered
moves it PENDING→FAILED, an edge absent from §4.1.  Second, in the
stop-during-run interleaving (start, stop, then the still-running
pipeline's completion handling, which does not re-check the status) the
task moves STOPPED→FAILED, out of a terminal state. -/
theorem task_status_edges_cex :
    statusOf sU 1 = some TaskStatus.pending ∧
    statusOf (startGeneration sU 1).2 1 = some TaskStatus.failed ∧
    specEdges.contains (TaskStatus.pending, TaskStatus.failed) = false ∧
    statusOf stopState 1 = some TaskStatus.stopped ∧
    statusOf (finishStep stopState 1 stoppedPluginResult) 1 = some TaskStatus.failed ∧
    specEdges.contains (TaskStatus.stopped, TaskStatus.failed) = false := by
  decide

/-- C1 (amended): per-operation characterization of the persisted status
transitions.  The guarded operations respect their edges: `start` moves a
task only from PENDING, to RUNNING or — when its plugin type is not
registered — to FAILED; `stop` moves a task only RUNNING→STOPPED;
`clear_pending_tasks` only PENDING→STOPPED; startup crash recovery only
RUNNING→STOPPED.  But the progress-persistence callback writes RUNNING,
and completion handling writes COMPLETED or FAILED, without re-checking
the current status, so a task stopped while its pipeline is in flight can
leave the terminal state STOPPED. -/
theorem task_status_edges_per_operation :
    (∀ s id j, statusOf (startGeneration s id).2 j = statusOf s j ∨
       (statusOf s j = some TaskStatus.pending ∧
         (statusOf (startGeneration s id).2 j = some TaskStatus.running ∨
          statusOf (startGeneration s id).2 j = some TaskStatus.failed))) ∧
    (∀ s id j, statusOf (stopGeneration s id).2 j = statusOf s j ∨
       (statusOf s j = some TaskStatus.running ∧
        statusOf (stopGeneration s id).2 j = some TaskStatus.stopped)) ∧
    (∀ s j, statusOf (clearPendingTasks s).2 j = statusOf s j ∨
       (statusOf s j = some TaskStatus.pending ∧
        statusOf (clearPendingTasks s).2 j = some TaskStatus.stopped)) ∧
    (∀ s j, statusOf (cleanupStuckTasks s) j = statusOf s j ∨
       (statusOf s j = some TaskStatus.running ∧
        statusOf (cleanupStuckTasks s) j = some TaskStatus.stopped)) ∧
    (∀ s id p j, statusOf (progressStep s id p) j = statusOf s j ∨
       statusOf (progressStep s id p) j = some TaskStatus.running) ∧
    (∀ s id r j, statusOf (finishStep s id r) j = statusOf s j ∨
       statusOf (finishStep s id r) j = some TaskStatus.completed ∨
       statusOf (finishStep s id r) j = some TaskStatus.failed) := by
  refine ⟨?_, ?_, ?_, ?_, ?_, ?_⟩
  · -- start_generation
    intro s id j
    unfold startGeneration startCheck startApply
    cases hl : lookupTask s.tasks id with
    | none => simp [hl]
    | some task =>
      simp only [hl]
      by_cases hpend : task.status = TaskStatus.pending
      · simp only [hpend, beq_self_eq_true, if_true]
        by_cases hreg : task.type ∈ s.registry
        · rw [if_pos hreg]
          by_cases hj : j = id
          · subst hj
            refine Or.inr ⟨by rw [statusOf, hl]; simp [hpend], Or.inl ?_⟩
            simp only [statusOf]
            rw [lookup_updateTaskStatus_self]
            show ((lookupTask s.tasks j).map _ |>.map _) = _
            rw [hl]
            rfl
          · left
            simp only [statusOf]
            rw [lookup_updateTaskStatus_ne _ _ _ _ _ _ _ hj]
        · rw [if_neg hreg]
          by_cases hj : j = id
          · subst hj
            refine Or.inr ⟨by rw [statusOf, hl]; simp [hpend], Or.inr ?_⟩
            simp only [statusOf]
            rw [lookup_updateTaskStatus_self, hl]
            rfl
          · left
            simp only [statusOf]
            rw [lookup_updateTaskStatus_ne _ _ _ _ _ _ _ hj]
      · have hb : (task.status == TaskStatus.pending) = false := by
          simpa using hpend
        simp [hb]
  · -- stop_generation
    intro s id j
    unfold stopGeneration
    cases hl : lookupTask s.tasks id with
    | none => left; rfl
    | some task =>
      simp only []
      by_cases hrun : task.status = TaskStatus.running
      · rw [if_pos hrun]
        by_cases hj : j = id
        · subst hj
          refine Or.inr ⟨by rw [statusOf, hl]; simp [hrun], ?_⟩
          simp only [statusOf]
          rw [lookup_updateTaskStatus_self]
          show ((lookupTask s.tasks j).map _ |>.map _) = _
          rw [hl]
          rfl
        · left
          simp only [statusOf]
          rw [lookup_updateTaskStatus_ne _ _ _ _ _ _ _ hj]
      · rw [if_neg hrun]; left; rfl
  · -- clear_pending_tasks
    intro s j
    unfold clearPendingTasks
    by_cases hn : 0 < (s.tasks.filter (fun p => p.2.status == TaskStatus.pending)).length
    · rw [if_pos hn]
      simp only [statusOf]
      rw [lookupTask_mapVals]
      cases hl : lookupTask s.tasks j with
      | none => left; rfl
      | some r =>
        by_cases hp : r.status = TaskStatus.pending
        · right
          refine ⟨by simp [hp], ?_⟩
          simp [hp]
        · left; simp [hp]
    · rw [if_neg hn]; left; rfl
  · -- cleanup_stuck_tasks
    intro s j
    unfold cleanupStuckTasks
    simp only [statusOf]
    rw [lookupTask_mapVals]
    cases hl : lookupTask s.tasks j with
    | none => left; rfl
    | some r =>
      by_cases hp : r.status = TaskStatus.running
      · right
        refine ⟨by simp [hp], ?_⟩
        simp [hp]
      · left; simp [hp]
  · -- the progress-persistence callback
    intro s id p j
    unfold progressStep
    by_cases hf : id ∈ s.inflight
    · rw [if_pos hf]
      exact statusOf_update_cases s id TaskStatus.running (some p) none none j
    · rw [if_neg hf]; left; rfl
  · -- completion handling in _run_generation
    intro s id r j
    unfold finishStep
    by_cases hf : id ∈ s.inflight
    · rw [if_pos hf]
      by_cases hs : r.success
      · rw [if_pos hs]
        rcases statusOf_update_cases s id TaskStatus.completed (some 100) (some r.data) none j
          with h | h
        · left; exact h
        · right; left; exact h
      · rw [if_neg hs]
        rcases statusOf_update_cases s id TaskStatus.failed none none (some r.error) j
          with h | h
        · left; exact h
        · right; right; exact h
    · rw [if_neg hf]; left; rfl

/-! ## C5: completed_at stamping -/

/-- C5 (counterexample): `completed_at` is neither always non-null after
a terminal transition nor written exactly once.  The startup
crash-recovery update moves an orphaned RUNNING task to the terminal
state STOPPED without writing `completed_at` (it stays null), and in the
stop-during-run interleaving the stop's STOPPED write stamps
`completed_at` at time 2 while the pipeline's subsequent FAILED write
re-stamps it at time 3. -/
theorem completed_at_stamping_cex :
    statusOf (cleanupStuckTasks sRun) 2 = some TaskStatus.stopped ∧
    completedAtOf (cleanupStuckTasks sRun) 2 = some none ∧
    completedAtOf stopState 1 = some (some 2) ∧
    completedAtOf (finishStep stopState 1 stoppedPluginResult) 1 = some (some 3) := by
  decide

/-- C5 (amended): every terminal write that goes through
`update_task_status` stamps `completed_at` with the write's timestamp
(non-null, but overwriting any previous value rather than setting it
exactly once), while the startup crash-recovery update never touches
`completed_at` at all, so its RUNNING→STOPPED transition can leave the
field null. -/
theorem completed_at_stamping :
    (∀ s id st prog res err, st ∈ terminalStatuses →
       completedAtOf (updateTaskStatus s id st prog res err) id =
         (lookupTask s.tasks id).map (fun _ => some s.time)) ∧
    (∀ s j, completedAtOf (cleanupStuckTasks s) j = completedAtOf s j) := by
  constructor
  · intro s id st prog res err hst
    rw [completedAtOf, lookup_updateTaskStatus_self]
    cases lookupTask s.tasks id with
    | none => rfl
    | some e => simp [if_pos hst]
  · intro s j
    unfold cleanupStuckTasks
    rw [completedAtOf, completedAtOf]
    show (lookupTask (mapVals _ s.tasks) j).map _ = _
    rw [lookupTask_mapVals]
    cases lookupTask s.tasks j with
    | none => rfl
    | some r =>
      by_cases hp : r.status = TaskStatus.running <;> simp [hp]

/-- C5 (witness): a terminal write through `update_task_status` at the
concrete pending store stamps `completed_at` with the current clock. -/
theorem completed_at_stamping_witness :
    completedAtOf (updateTaskStatus s0 1 TaskStatus.stopped none none none) 1 =
      some (some 1) := by
  have h := completed_at_stamping.1 s0 1 TaskStatus.stopped none none none (by decide)
  rw [h]; decide

/-! ## C6: startup crash recovery -/

/-- C6: the startup crash-recovery scan (`cleanup_stuck_tasks`) moves
every RUNNING task to STOPPED with progress reset to 0 and the fixed
non-empty restart error message, and leaves every task in any other
status entirely untouched. -/
theorem crash_recovery_stops_running :
    ∀ s j r, lookupTask s.tasks j = some r →
      ((r.status = TaskStatus.running →
         ∃ r2, lookupTask (cleanupStuckTasks s).tasks j = some r2 ∧
           r2.status = TaskStatus.stopped ∧ r2.progress = 0 ∧
           r2.error = some restartErrorMessage ∧ 0 < restartErrorMessage.length) ∧
       (r.status ≠ TaskStatus.running →
         lookupTask (cleanupStuckTasks s).tasks j = some r)) := by
  intro s j r hl
  constructor
  · intro hrun
    refine ⟨{ r with status := TaskStatus.stopped, progress := 0, error := some restartErrorMessage, updated_at := s.time }, ?_, rfl, rfl, rfl, by decide⟩
    unfold cleanupStuckTasks
    show lookupTask (mapVals _ s.tasks) j = _
    rw [lookupTask_mapVals, hl]
    simp [hrun]
  · intro hoth
    unfold cleanupStuckTasks
    show lookupTask (mapVals _ s.tasks) j = _
    rw [lookupTask_mapVals, hl]
    simp [hoth]

/-- C6 (witness): at the concrete startup store, the orphaned RUNNING
task 2 is recovered to STOPPED with progress 0 and the restart message,
and the COMPLETED task 3 is untouched. -/
theorem crash_recovery_stops_running_witness :
    (∃ r2, lookupTask (cleanupStuckTasks sRun).tasks 2 = some r2 ∧
      r2.status = TaskStatus.stopped ∧ r2.progress = 0 ∧
      r2.error = some restartErrorMessage ∧ 0 < restartErrorMessage.length) ∧
    lookupTask (cleanupStuckTasks sRun).tasks 3 = some trDone :=
  ⟨(crash_recovery_stops_running sRun 2 trRun (by decide)).1 (by decide),
   (crash_recovery_stops_running sRun 3 trDone (by decide)).2 (by decide)⟩

/-! ## C7: invalid start/stop are rejected without mutation -/

/-- C7: `start_generation` on a task that is missing or not PENDING, and
`stop_generation` on a task that is missing or not RUNNING, return false
and leave the whole state (in particular the task's status) unchanged. -/
theorem invalid_state_start_stop_rejected :
    ∀ s id,
      (statusOf s id ≠ some TaskStatus.pending → startGeneration s id = (false, s)) ∧
      (statusOf s id ≠ some TaskStatus.running → stopGeneration s id = (false, s)) := by
  intro s id
  constructor
  · intro h
    have hc : startCheck s id = false := by
      unfold startCheck
      cases hl : lookupTask s.tasks id with
      | none => rfl
      | some task =>
        have ht : task.status ≠ TaskStatus.pending := by
          intro e; exact h (by simp [statusOf, hl, e])
        simpa using ht
    unfold startGeneration
    rw [hc]
    simp
  · intro h
    unfold stopGeneration
    cases hl : lookupTask s.tasks id with
    | none => rfl
    | some task =>
      have ht : task.status ≠ TaskStatus.running := by
        intro e; exact h (by simp [statusOf, hl, e])
      simp only []
      rw [if_neg ht]

/-- C7 (witness): starting the RUNNING task 2 and stopping the PENDING
task 1 are both rejected with false and no state change. -/
theorem invalid_state_start_stop_rejected_witness :
    startGeneration sRun 2 = (false, sRun) ∧ stopGeneration s0 1 = (false, s0) :=
  ⟨(invalid_state_start_stop_rejected sRun 2).1 (by decide),
   (invalid_state_start_stop_rejected s0 1).2 (by decide)⟩

/-! ## C8: the double-start race -/

/-- C8: when two concurrent `start_generation` calls for the same
PENDING task both execute their read-and-check phase before either
applies (possible because the status read is awaited), both checks pass,
both apply phases report success, and two `_run_generation` pipelines are
dispatched for the one task (the second `running_tasks` insert merely
overwrites the first dict entry), instead of one invocation being
rejected. -/
theorem double_start_race_both_succeed :
    startCheck s0 1 = true ∧
    (startApply s0 1).1 = true ∧
    (startApply (startApply s0 1).2 1).1 = true ∧
    (startApply (startApply s0 1).2 1).2.inflight = [1, 1] ∧
    (startApply (startApply s0 1).2 1).2.running_tasks = [1] ∧
    statusOf (startApply (startApply s0 1).2 1).2 1 = some TaskStatus.running := by
  decide

/-! ## C9: stop with no live plugin instance -/

/-- C9: `stop_generation` on a task whose persisted status is RUNNING
but whose id has no live plugin instance in the running-set still returns
true and transitions the task to STOPPED. -/
theorem stop_tolerates_missing_plugin_instance :
    ∀ s id r, lookupTask s.tasks id = some r → r.status = TaskStatus.running →
      s.running_tasks.contains id = false →
      (stopGeneration s id).1 = true ∧
      statusOf (stopGeneration s id).2 id = some TaskStatus.stopped := by
  intro s id r hl hrun hmem
  unfold stopGeneration
  simp only [hl]
  rw [if_pos hrun]
  refine ⟨rfl, ?_⟩
  simp only [statusOf]
  rw [lookup_updateTaskStatus_self]
  show ((lookupTask s.tasks id).map _ |>.map _) = _
  rw [hl]
  rfl

/-- C9 (witness): stopping the orphaned RUNNING task 2 (running-set is
empty) succeeds and persists STOPPED. -/
theorem stop_tolerates_missing_plugin_instance_witness :
    (stopGeneration sRun 2).1 = true ∧
    statusOf (stopGeneration sRun 2).2 2 = some TaskStatus.stopped :=
  stop_tolerates_missing_plugin_instance sRun 2 trRun (by decide) (by decide) (by decide)

/-! ## C2: monotonicity of persisted progress -/

theorem nondecreasingList_desc (pre : List Rat) (a b : Rat) (post : List Rat)
    (h : decide (a ≤ b) = false) :
    nondecreasingList (pre ++ a :: b :: post) = false := by
  induction pre with
  | nil =>
    show (decide (a ≤ b) && nondecreasingList (b :: post)) = false
    rw [h, Bool.false_and]
  | cons x pre ih =>
    rcases hq : pre ++ a :: b :: post with _ | ⟨c, cs⟩
    · exact absurd hq (by simp)
    · show nondecreasingList (x :: (pre ++ a :: b :: post)) = false
      rw [hq]
      show (decide (x ≤ c) && nondecreasingList (c :: cs)) = false
      rw [← hq, ih, Bool.and_false]

/-- C2: the sequence of progress values a successful single-variant SDXL
run (no LoRAs, any sampling cadence) hands to the persistence callback is
not non-decreasing: after the latent-init report (inner 20%, persisted
23) the frame-record step reports inner 15% again (persisted 18.5), a
strict decrease, so the persisted progress sequence of a task is not
monotonically non-decreasing as claimed. -/
theorem sdxl_progress_not_monotone :
    ∀ sampling, nondecreasingList (persistedProgressReports 1 false sampling) = false := by
  intro sampling
  have hshape : persistedProgressReports 1 false sampling =
      [clampProgress 5, scaleVariantProgress 0 1 (clampProgress 15)] ++
        scaleVariantProgress 0 1 (clampProgress 20) ::
        scaleVariantProgress 0 1 (clampProgress 15) ::
        ((((25 : Rat) :: sampling ++ [85, 95, 100]).map
            (fun p => scaleVariantProgress 0 1 (clampProgress p))) ++ [clampProgress 100]) := by
    have hr : List.range 1 = [0] := rfl
    simp [persistedProgressReports, variantProgressReports, hr]
  rw [hshape]
  refine nondecreasingList_desc _ _ _ _ ?_
  rw [decide_eq_false_iff_not]
  norm_num [scaleVariantProgress, clampProgress]

/-! ## C3: the 3-variant scenario -/

/-- C3 (counterexample): in the 3-variant run with base seed 100, three
Frame records with ids 1, 2 and 3 are created, but the task result's
`generated_frames` is `[1, 1, 1]` — each variant returns the naming
(first) frame id — so the result does not list one id per created Frame
record (id 2 is created but never listed). -/
theorem multi_variant_result_ids_cex :
    sdxl3.2.generated_frames = [1, 1, 1] ∧
    sdxl3.1.frames.map FrameRec.id = [1, 2, 3] ∧
    sdxl3.2.generated_frames.contains 2 = false := by decide

/-- C3 (amended): the 3-variant run with base seed 100 on a fresh store
succeeds and creates exactly 3 Frame records (ids 1, 2, 3), all with
project 7, with `variant_id` 0, 1, 2 and per-variant sampling seeds 100,
101, 102; the task result's `generated_frames` has exactly 3 entries,
but they are all the first variant's (naming) frame id rather than one
id per created record. -/
theorem multi_variant_scenario :
    sdxl3.2.success = true ∧
    sdxl3.1.frames.length = 3 ∧
    sdxl3.1.frames.map FrameRec.project_id = [7, 7, 7] ∧
    sdxl3.1.frames.map FrameRec.variant_id = [0, 1, 2] ∧
    sdxl3.1.frames.map FrameRec.id = [1, 2, 3] ∧
    (sdxl3outs.2.map (fun outs => outs.map VariantOut.seed)) = some [100, 101, 102] ∧
    sdxl3.2.generated_frames = List.replicate 3 1 := by decide

/-! ## C4: get_progress on the SDXL wrapper plugin -/

/-- C4: `get_progress()` does not return the last value reported to the
progress sink for every plugin instance.  On a fresh `SDXLPlugin` both
progress fields are 0; after the inner loader reports 5 to the sink
during `generate`, the wrapper's inherited `get_progress` still returns
0 (the loader stored the value on itself, not on the wrapper).  A plugin
that reports through `BasePlugin.update_progress` on itself, by
contrast, does return the reported value. -/
theorem sdxl_wrapper_progress_stuck :
    pluginGetProgress sdxlPluginInit = 0 ∧
    (loaderUpdateProgress sdxlPluginInit 5).2 = 5 ∧
    pluginGetProgress (loaderUpdateProgress sdxlPluginInit 5).1 = 0 ∧
    baseGetProgress basePluginInit = 0 ∧
    baseGetProgress (baseUpdateProgress basePluginInit 5).1 =
      (baseUpdateProgress basePluginInit 5).2 := by decide

/-! ## C10: delete_frame deletes by substring pattern -/

theorem likeMatch_percent_intro (p : List Char) (s : List Char) (k : Nat)
    (hk : k ≤ s.length) (h : likeMatch p (s.drop k) = true) :
    likeMatch ('%' :: p) s = true := by
  have he : likeMatch ('%' :: p) s =
      (List.range (s.length + 1)).any (fun k => likeMatch p (s.drop k)) := by
    simp [likeMatch]
  rw [he, List.any_eq_true]
  refine ⟨k, ?_, h⟩
  simp [Nat.lt_succ_of_le hk]

theorem likeMatch_percent_nil (s : List Char) : likeMatch ['%'] s = true := by
  refine likeMatch_percent_intro [] s s.length (Nat.le_refl _) ?_
  simp [likeMatch]

theorem likeMatch_append_lit (lit rest : List Char) :
    likeMatch (lit ++ ['%']) (lit ++ rest) = true := by
  induction lit with
  | nil => exact likeMatch_percent_nil rest
  | cons c lit ih =>
    show likeMatch (c :: (lit ++ ['%'])) (c :: (lit ++ rest)) = true
    by_cases hc : c = '%'
    · subst hc
      exact likeMatch_percent_intro _ _ 1 (by simp) ih
    · simp [likeMatch, hc, ih]

theorem isPrefixOf_exists (l : List Char) :
    ∀ s, l.isPrefixOf s = true → ∃ post, s = l ++ post := by
  induction l with
  | nil => intro s _; exact ⟨s, rfl⟩
  | cons c l ih =>
    intro s h
    cases s with
    | nil => simp [List.isPrefixOf] at h
    | cons d s2 =>
      simp only [List.isPrefixOf, Bool.and_eq_true, beq_iff_eq] at h
      obtain ⟨rfl, h2⟩ := h
      obtain ⟨post, rfl⟩ := ih s2 h2
      exact ⟨post, rfl⟩

theorem containsSeq_exists (lit : List Char) :
    ∀ s, containsSeq lit s = true → ∃ pre post, s = pre ++ (lit ++ post) := by
  intro s
  induction s with
  | nil =>
    intro h
    simp only [containsSeq, List.isEmpty_iff] at h
    subst h
    exact ⟨[], [], rfl⟩
  | cons c s ih =>
    intro h
    simp only [containsSeq, Bool.or_eq_true] at h
    rcases h with h | h
    · obtain ⟨post, hp⟩ := isPrefixOf_exists lit (c :: s) h
      exact ⟨[], post, hp⟩
    · obtain ⟨pre, post, hp⟩ := ih h
      exact ⟨c :: pre, post, by simp [hp]⟩

theorem likeMatch_of_containsSeq (lit s : List Char) (h : containsSeq lit s = true) :
    likeMatch ('%' :: (lit ++ ['%'])) s = true := by
  obtain ⟨pre, post, rfl⟩ := containsSeq_exists lit s h
  refine likeMatch_percent_intro _ _ pre.length (by simp) ?_
  rw [List.drop_left]
  exact likeMatch_append_lit lit post

theorem filter_not_length_lt {α : Type u} (l : List α) (p : α → Bool) :
    ((l.filter p).isEmpty = false) ↔
      ((l.filter (fun x => !(p x))).length < l.length) := by
  induction l with
  | nil => simp
  | cons x xs ih =>
    by_cases h : p x
    · have h1 : (List.filter p (x :: xs)).isEmpty = false := by
        simp [List.filter_cons, h]
      have h2 : List.filter (fun y => !(p y)) (x :: xs) =
          List.filter (fun y => !(p y)) xs := by
        simp [List.filter_cons, h]
      constructor
      · intro _
        rw [h2]
        exact Nat.lt_succ_of_le (List.length_filter_le _ _)
      · intro _
        exact h1
    · have h1 : List.filter p (x :: xs) = List.filter p xs := by
        simp [List.filter_cons, h]
      have h2 : List.filter (fun y => !(p y)) (x :: xs) =
          x :: List.filter (fun y => !(p y)) xs := by
        simp [List.filter_cons, h]
      rw [h1, h2]
      simpa [Nat.succ_lt_succ_iff] using ih

/-- C10: `delete_frame` behaves as described.  When the frame id does
not exist it returns false and deletes nothing.  When it exists, every
frame of the same project whose path contains (as a character
subsequence) the base frame's path stem truncated at `_v` is deleted —
including frames of unrelated generation requests whose paths merely
contain that text — and the returned boolean is true exactly when at
least one record was deleted. -/
theorem delete_frame_substring_behavior :
    (∀ st fid, getFrameById st fid = none → deleteFrame st fid = (false, st)) ∧
    (∀ st fid base f, getFrameById st fid = some base → f ∈ st.frames →
       f.project_id = base.project_id →
       containsSeq (basePartsOf (pyPathStem base.path.toList)) f.path.toList = true →
       ¬ f ∈ (deleteFrame st fid).2.frames) ∧
    (∀ st fid base, getFrameById st fid = some base →
       ((deleteFrame st fid).1 = true ↔
        (deleteFrame st fid).2.frames.length < st.frames.length)) := by
  refine ⟨?_, ?_, ?_⟩
  · intro st fid h
    unfold deleteFrame
    simp [h]
  · intro st fid base f hbase hmem hproj hsub
    unfold deleteFrame
    simp only [hbase]
    intro hmem2
    simp only [List.mem_filter] at hmem2
    have hlike := likeMatch_of_containsSeq _ _ hsub
    simp only [hproj] at hmem2
    simp at hmem2
    have hlike2 : likeMatch ('%' :: (basePartsOf (pyPathStem base.path.data) ++ ['%']))
        f.path.data = true := hlike
    rw [hmem2.2] at hlike2
    exact Bool.false_ne_true hlike2
  · intro st fid base hbase
    unfold deleteFrame
    simp only [hbase]
    rw [Bool.not_eq_true']
    exact filter_not_length_lt _ _

/-- C10 (witness): in the concrete store, deleting a missing id returns
false and changes nothing; deleting frame 1 removes the unrelated frame
whose path contains the text `project_7_frame_1`, and returns true. -/
theorem delete_frame_substring_behavior_witness :
    deleteFrame dst0 99 = (false, dst0) ∧
    ¬ fC ∈ (deleteFrame dst0 1).2.frames ∧
    (deleteFrame dst0 1).1 = true :=
  ⟨(delete_frame_substring_behavior).1 dst0 99 (by decide),
   (delete_frame_substring_behavior).2.1 dst0 1 fA fC (by decide) (by decide)
     (by decide) (by decide),
   ((delete_frame_substring_behavior).2.2 dst0 1 fA (by decide)).mpr (by decide)⟩

end Kino
